import Mathlib

/-!
Verification of the training orchestration layer of `train.py`
(WaveNet multi-GPU / distributed training script).

The Python source is shallowly embedded: the gradient-averaging loop of
`build_multigpu`, the directory validation of `validate_directories`, the
checkpoint restore logic of `load`/`standalone`, the standalone training
loop with its periodic and final checkpointing, the distributed worker
loop, and the `create_inputs` silence-threshold handling are translated
into executable Lean definitions.  Gradients are modelled as rationals,
Python `None` as `Option`, Python exceptions as `Except` or dedicated
result constructors.
-/

/-! ## Gradient averaging (`build_multigpu`, train.py lines 237-258)

A per-tower gradient list contains, for each trainable variable position,
a pair `(g, v)` where `g` is the gradient (`none` models TF returning
`None` for a variable with no contribution) and `v` identifies the
variable.  `zip(*tower_grads)` regroups the per-tower lists by variable
position, truncating to the shortest list as Python `zip` does. -/

/-- A `(gradient, variable)` pair as produced by `compute_gradients`:
the gradient is `none` when the tower produced no contribution. -/
abbrev GradVar := Option ℚ × Nat

/-- Length of the shortest of a list of lists (0 when there are none). -/
def minLength : List (List α) → Nat
  | [] => 0
  | t :: ts => ts.foldl (fun m l => min m l.length) t.length

/-- Python `zip(*lists)`: regroup by position, truncating to the
shortest input list. -/
def pyZip [Inhabited α] (towers : List (List α)) : List (List α) :=
  match towers with
  | [] => []
  | t :: ts =>
    (List.range (minLength (t :: ts))).map
      (fun i => (t :: ts).map (fun l => l.getD i default))

/-- The gradients of the towers that produced one for this variable
position (the loop `for g,_ in grad_and_vars: if g is None: continue`). -/
def presentGrads (gvs : List GradVar) : List ℚ :=
  gvs.filterMap Prod.fst

/-- `tf.reduce_mean` over the stacked present gradients: the arithmetic
mean. -/
def towerMean (grads : List ℚ) : ℚ :=
  grads.sum / (grads.length : ℚ)

/-- The Python `NameError` raised when `v` is read before any
assignment. -/
def nameErrorV : String := "NameError: name v is not defined"

/-- The body of the averaging loop of `build_multigpu`, threading the
Python binding of `v` (`none` while `v` has never been assigned).  For a
position with no present gradient the code appends `(None, v)` using the
current binding of `v`; when `v` is unbound this raises `NameError`.
Otherwise it appends the mean of the present gradients paired with the
first tower's variable, and (re)binds `v` to that variable. -/
def avgGo (acc : List GradVar) (vOpt : Option Nat) :
    List (List GradVar) → Except String (List GradVar)
  | [] => .ok acc
  | gvs :: rest =>
    let grads := presentGrads gvs
    if grads.isEmpty then
      match vOpt with
      | none => .error nameErrorV
      | some v => avgGo (acc ++ [(none, v)]) vOpt rest
    else
      let v := (gvs.headD default).2
      avgGo (acc ++ [(some (towerMean grads), v)]) (some v) rest

/-- The gradient-averaging section of `build_multigpu`:
`for grad_and_vars in zip(*tower_grads): ...`. -/
def average_gradients (tower_grads : List (List GradVar)) :
    Except String (List GradVar) :=
  avgGo [] none (pyZip tower_grads)

/-! ## Silence threshold (`create_inputs`, train.py lines 265-284) -/

/-- `EPSILON = 0.001`. -/
def EPSILON : ℚ := 1 / 1000

/-- The local variable computed in `create_inputs`:
`silence_threshold = args.silence_threshold if args.silence_threshold >
EPSILON else None`. -/
def localSilenceThreshold (t : ℚ) : Option ℚ :=
  if t > EPSILON then some t else none

/-- The argument record relevant to `create_inputs`. -/
structure InputArgs where
  data_dir : String
  sample_size : Nat
  random_crop : Bool
  silence_threshold : ℚ
deriving DecidableEq, Repr

/-- The keyword arguments with which `AudioReader` is constructed. -/
structure AudioReaderCall where
  data_dir : String
  sample_rate : Nat
  sample_size : Nat
  random_crop : Bool
  silence_threshold : ℚ
deriving DecidableEq, Repr

/-- `create_inputs` constructs the `AudioReader`; note that the
`silence_threshold` keyword receives `args.silence_threshold` (the raw
value), not the local `silence_threshold` variable. -/
def create_inputs (args : InputArgs) (sample_rate : Nat) : AudioReaderCall :=
  { data_dir := args.data_dir
    sample_rate := sample_rate
    sample_size := args.sample_size
    random_crop := args.random_crop
    silence_threshold := args.silence_threshold }

/-! ## Directory validation (`validate_directories`, train.py 146-184,
and `main`, train.py 286-310) -/

/-- `LOGDIR_ROOT = './logdir'`. -/
def LOGDIR_ROOT : String := "./logdir"

/-- `get_default_logdir`: `os.path.join(logdir_root, 'train',
STARTED_DATESTRING)`; the datestring is a parameter. -/
def get_default_logdir (started : String) (logdir_root : String) : String :=
  logdir_root ++ "/train/" ++ started

/-- The three directory-related CLI options (each `none` when not
given; argparse defaults all three to `None`). -/
structure DirArgs where
  logdir : Option String
  logdir_root : Option String
  restore_from : Option String
deriving DecidableEq, Repr

/-- The dictionary returned by `validate_directories`. -/
structure Directories where
  logdir : String
  logdir_root : Option String
  restore_from : String
deriving DecidableEq, Repr

/-- `validate_directories`: raises `ValueError` when `--logdir` is
combined with `--logdir_root`, or when `--logdir` is combined with
`--restore_from`; otherwise arranges the directories, defaulting
`restore_from` to `logdir`. -/
def validate_directories (started : String) (args : DirArgs) :
    Except String Directories :=
  if args.logdir.isSome && args.logdir_root.isSome then
    .error "logdir and logdir_root cannot be specified at the same time"
  else if args.logdir.isSome && args.restore_from.isSome then
    .error "logdir and restore_from cannot be specified at the same time"
  else
    let logdir_root := args.logdir_root.getD LOGDIR_ROOT
    let logdir := args.logdir.getD (get_default_logdir started logdir_root)
    let restore_from := args.restore_from.getD logdir
    .ok { logdir := logdir, logdir_root := args.logdir_root,
          restore_from := restore_from }

/-- Whether an `Except` is in the error state. -/
def isErr : Except ε α → Bool
  | .error _ => true
  | .ok _ => false

/-- Coarse events of `main` in program order. -/
inductive MainEvent where
  | printedConfigError
  | openedParamsFile (path : String)
  | ranTraining
deriving DecidableEq, Repr

/-- `main`: validates directories first; on `ValueError` it prints the
error and returns, opening no file; otherwise it opens the
wavenet-params file and dispatches to training. -/
def main_trace (started : String) (args : DirArgs)
    (wavenet_params_path : String) : List MainEvent :=
  match validate_directories started args with
  | .error _ => [.printedConfigError]
  | .ok _ => [.openedParamsFile wavenet_params_path, .ranTraining]

/-- `is_overwritten_training = logdir != restore_from` (train.py 302). -/
def is_overwritten_training (logdir restore_from : String) : Bool :=
  logdir != restore_from

/-! ## Standalone training loop (`standalone`, train.py 416-490, and
`load`, train.py 121-138)

`load` returns `none` when no checkpoint exists and the embedded step
otherwise; any exception during restore is modelled by passing an
`Except.error` into the run.  The loop
`for step in range(saved_global_step + 1, args.num_steps)` is modelled
by `pyRange`; a keyboard interrupt after `k` completed iterations is
modelled by truncating the executed steps to the first `k`. -/

/-- Python `range(lo, hi)` over integers, as a list. -/
def pyRange (lo hi : Int) : List Int :=
  (List.range (hi - lo).toNat).map (fun i => lo + Int.ofNat i)

/-- The mutable state of the standalone loop: `last_saved_step`, the
steps at which `save` was called so far, and the current binding of the
loop variable `step` (`none` before the first iteration — Python leaves
the variable unbound when the range is empty). -/
structure LoopState where
  lastSaved : Int
  checkpoints : List Int
  stepVar : Option Int
deriving DecidableEq, Repr

/-- One iteration of the standalone loop body: bind `step`, then
`if step % args.checkpoint_every == 0: save(...); last_saved_step =
step`. -/
def loopIter (checkpointEvery : Nat) (s : LoopState) (step : Int) :
    LoopState :=
  let s1 : LoopState := { s with stepVar := some step }
  if step % (checkpointEvery : Int) == 0 then
    { s1 with lastSaved := step, checkpoints := s1.checkpoints ++ [step] }
  else s1

/-- Run the loop body over the executed steps in order. -/
def processSteps (checkpointEvery : Nat) (s : LoopState) :
    List Int → LoopState
  | [] => s
  | st :: rest => processSteps checkpointEvery (loopIter checkpointEvery s st) rest

/-- The steps the loop actually executes: the full
`range(saved + 1, num_steps)`, truncated to the first `k` iterations
when an interrupt arrives after `k` completed iterations. -/
def executedSteps (saved : Int) (numSteps : Nat)
    (interruptAfter : Option Nat) : List Int :=
  let all := pyRange (saved + 1) (numSteps : Int)
  match interruptAfter with
  | none => all
  | some k => all.take k

/-- Outcome of a standalone run: restore failure propagated before any
step, `NameError` in the `finally` block when the loop variable was
never bound, or normal completion with the executed steps, the periodic
checkpoint steps, and the step of the final save (if one was written). -/
inductive RunResult where
  | restoreError (msg : String)
  | nameError (executed checkpoints : List Int)
  | completed (executed checkpoints : List Int) (finalSave : Option Int)
deriving DecidableEq, Repr

/-- The loop plus its `finally` block: after the executed steps, the
cleanup reads `step`; if it was never assigned this raises `NameError`,
otherwise `if step > last_saved_step: save(...)`. -/
def runLoop (saved : Int) (numSteps checkpointEvery : Nat)
    (interruptAfter : Option Nat) : RunResult :=
  let steps := executedSteps saved numSteps interruptAfter
  let init : LoopState := { lastSaved := saved, checkpoints := [], stepVar := none }
  let fin := processSteps checkpointEvery init steps
  match fin.stepVar with
  | none => .nameError steps fin.checkpoints
  | some st =>
    .completed steps fin.checkpoints
      (if st > fin.lastSaved then some st else none)

/-- `saved_global_step` after the restore block of `standalone`:
`-1` when the training is overwritten or no checkpoint was found,
otherwise the restored step. -/
def resolveSavedStep (loadResult : Option Int) (isOverwritten : Bool) :
    Int :=
  if isOverwritten || loadResult.isNone then -1 else loadResult.getD (-1)

/-- `standalone` from the restore block onwards: a restore exception is
printed and re-raised (no fallback, no step executes); otherwise the
training loop runs from the resolved saved step. -/
def standalone_run (loadResult : Except String (Option Int))
    (isOverwritten : Bool) (numSteps checkpointEvery : Nat)
    (interruptAfter : Option Nat) : RunResult :=
  match loadResult with
  | .error e => .restoreError e
  | .ok r => runLoop (resolveSavedStep r isOverwritten) numSteps
      checkpointEvery interruptAfter

/-- The steps a run executed (none for a propagated restore error). -/
def executedOf : RunResult → List Int
  | .restoreError _ => []
  | .nameError ex _ => ex
  | .completed ex _ _ => ex

/-- The periodic checkpoint steps a run wrote. -/
def checkpointsOf : RunResult → List Int
  | .restoreError _ => []
  | .nameError _ cps => cps
  | .completed _ cps _ => cps

/-- The final save of a run, if one was written. -/
def finalSaveOf : RunResult → Option Int
  | .completed _ _ fs => fs
  | _ => none

/-- The step of the most recent checkpoint: the last periodic
checkpoint of this run, or the restored step when this run wrote none. -/
def lastCheckpointed (saved : Int) (cps : List Int) : Int :=
  cps.getLast?.getD saved

/-! ## Distributed worker (`distributed`, train.py 313-406) -/

/-- What a distributed worker did during its run: whether it ran the
init-tokens op and started the chief queue runner, the global-step
values at which it wrote summaries, whether its cleanup wrote a
checkpoint, and at which step. -/
structure WorkerTrace where
  issuedInitTokens : Bool
  summaryWrites : List Nat
  savedCheckpoint : Bool
  checkpointStep : Nat
deriving DecidableEq, Repr

/-- The worker loop: `step = 0`, then each iteration observes the
current global step and, only when chief, writes a summary for it.
Returns the final binding of `step` and the summary writes. -/
def workerLoop (isChief : Bool) : Nat × List Nat → List Nat → Nat × List Nat
  | acc, [] => acc
  | (_, sw), s :: rest =>
    workerLoop isChief (s, if isChief then sw ++ [s] else sw) rest

/-- The worker branch of `distributed`: only the chief runs
`init_token_op` (and the chief queue runner) and owns the summary
writer, but the `finally` block calls `save(saver, sess, logdir, step)`
unconditionally, for every worker. -/
def distributed_worker (taskIndex : Nat) (observedSteps : List Nat) :
    WorkerTrace :=
  let isChief := taskIndex == 0
  let (finalStep, sw) := workerLoop isChief (0, []) observedSteps
  { issuedInitTokens := isChief
    summaryWrites := sw
    savedCheckpoint := true
    checkpointStep := finalStep }

/-! ## Helper lemmas -/

lemma pyRange_length (lo hi : Int) : (pyRange lo hi).length = (hi - lo).toNat := by
  rw [pyRange, List.length_map, List.length_range]

lemma pyRange_getD (lo hi : Int) (i : Nat) (h : i < (pyRange lo hi).length) :
    (pyRange lo hi).getD i 0 = lo + i := by
  rw [List.getD_eq_getElem _ _ h]
  simp only [pyRange, List.getElem_map, List.getElem_range, Int.ofNat_eq_coe]

lemma headD_eq_getD (l : List Int) (h : l ≠ []) : l.headD 0 = l.getD 0 0 := by
  cases l with
  | nil => exact absurd rfl h
  | cons a t => rfl

/-- Claim C10 (theorem): if the restored step S satisfies S + 1 >= num_steps, the
loop body never runs, the loop variable is never bound, and the cleanup raises
NameError. -/
theorem C10_empty_loop_nameError (S : Int) (ns ce : Nat) (it : Option Nat)
    (h : (ns : Int) ≤ S + 1) :
    standalone_run (.ok (some S)) false ns ce it = .nameError [] [] := by
  have h0 : ((ns : Int) - (S + 1)).toNat = 0 := by omega
  have hresolve : resolveSavedStep (some S) false = S := by
    simp [resolveSavedStep]
  have hsteps : executedSteps S ns it = [] := by
    unfold executedSteps pyRange
    rw [h0]
    cases it <;> simp
  simp [standalone_run, hresolve, runLoop, hsteps, processSteps]

/-- Claim C10 (witness): with restored step 5 and num_steps 3 the run ends in
NameError with no executed step and no checkpoint. -/
theorem C10_witness :
    standalone_run (.ok (some 5)) false 3 2 none = .nameError [] [] :=
  C10_empty_loop_nameError 5 3 2 none (by norm_num)

/-- Claim C3 (counterexample): with num_steps=3, checkpoint_every=2 and a fresh
start, the run writes no final checkpoint at all (so none at step 3), and its
periodic checkpoints are at steps 0 and 2. -/
theorem C3_no_final_checkpoint :
    finalSaveOf (standalone_run (.ok none) false 3 2 none) = none ∧
    checkpointsOf (standalone_run (.ok none) false 3 2 none) = [0, 2] := by
  decide

/-- Claim C3 (amended, theorem): the loop executes steps 0, 1, 2 (it stops once
the step would reach num_steps), checkpoints at steps 0 and 2, and writes no
final checkpoint since the last executed step 2 equals the last checkpointed
step. -/
theorem C3_run_profile :
    standalone_run (.ok none) false 3 2 none =
      .completed [0, 1, 2] [0, 2] none := by
  decide

/-- Claim C9 (theorem): the AudioReader is constructed with the raw
args.silence_threshold; for thresholds not exceeding EPSILON the locally
computed value is none and differs from what is passed, so trimming is not
disabled. -/
theorem C9_raw_threshold_passed (args : InputArgs) (sr : Nat) :
    (create_inputs args sr).silence_threshold = args.silence_threshold ∧
    (args.silence_threshold ≤ EPSILON →
      localSilenceThreshold args.silence_threshold = none ∧
      localSilenceThreshold args.silence_threshold ≠
        some ((create_inputs args sr).silence_threshold)) := by
  refine ⟨rfl, fun h => ?_⟩
  have hlt : ¬ args.silence_threshold > EPSILON := not_lt.mpr h
  constructor
  · simp [localSilenceThreshold, hlt]
  · simp [localSilenceThreshold, hlt]

/-- Claim C9 (witness): with threshold 1/2000 (below EPSILON = 1/1000) the
local value is none yet the reader receives 1/2000. -/
theorem C9_witness :
    localSilenceThreshold (1 / 2000) = none ∧
    localSilenceThreshold (1 / 2000) ≠
      some ((create_inputs
        { data_dir := "corpus", sample_size := 100000, random_crop := false,
          silence_threshold := 1 / 2000 } 16000).silence_threshold) :=
  (C9_raw_threshold_passed
    { data_dir := "corpus", sample_size := 100000, random_crop := false,
      silence_threshold := 1 / 2000 } 16000).2 (by norm_num [EPSILON])

lemma workerLoop_snd_not_chief (steps : List Nat) :
    ∀ st sw, (workerLoop false (st, sw) steps).2 = sw := by
  induction steps with
  | nil => intro st sw; rfl
  | cons s rest ih =>
    intro st sw
    simpa [workerLoop] using ih s sw

/-- Claim C8 (counterexample): a non-chief worker (task index 1) still writes a
checkpoint in its cleanup block, contradicting that only the chief saves
checkpoints. -/
theorem C8_nonchief_writes_checkpoint :
    (distributed_worker 1 [3, 4]).savedCheckpoint = true := by
  decide

/-- Claim C8 (amended, theorem): a non-chief worker never writes summaries and
never issues the initial synchronization tokens — only the chief does — but
every worker, chief or not, writes one final checkpoint in its cleanup block. -/
theorem C8_nonchief_trace (ti : Nat) (steps : List Nat) (h : ti ≠ 0) :
    (distributed_worker ti steps).issuedInitTokens = false ∧
    (distributed_worker ti steps).summaryWrites = [] ∧
    (distributed_worker ti steps).savedCheckpoint = true := by
  have hb : (ti == 0) = false := by
    simpa using h
  refine ⟨?_, ?_, rfl⟩
  · simp [distributed_worker, hb]
  · simp [distributed_worker, hb, workerLoop_snd_not_chief]

/-- Claim C8 (witness): concrete non-chief worker with task index 1. -/
theorem C8_witness :
    (distributed_worker 1 [3, 4]).issuedInitTokens = false ∧
    (distributed_worker 1 [3, 4]).summaryWrites = [] ∧
    (distributed_worker 1 [3, 4]).savedCheckpoint = true :=
  C8_nonchief_trace 1 [3, 4] (by decide)

/-- Claim C4 (theorem): the saved step resolves to -1 on overwritten training
or a missing checkpoint and to S on a same-logdir restore of step S; a logdir
equal to restore_from is not overwritten training; the executed steps start at
saved + 1 (0 for a fresh start) and increase by exactly 1. -/
theorem C4_step_counter (S : Int) (ns : Nat) (r : Option Int) (d : String) :
    resolveSavedStep r true = -1 ∧
    resolveSavedStep none false = -1 ∧
    resolveSavedStep (some S) false = S ∧
    is_overwritten_training d d = false ∧
    (pyRange (S + 1) ns ≠ [] → (pyRange (S + 1) ns).headD 0 = S + 1) ∧
    (∀ i : Nat, i + 1 < (pyRange (S + 1) ns).length →
      (pyRange (S + 1) ns).getD (i + 1) 0 = (pyRange (S + 1) ns).getD i 0 + 1) := by
  refine ⟨?_, rfl, rfl, ?_, ?_, ?_⟩
  · simp [resolveSavedStep]
  · simp [is_overwritten_training]
  · intro hne
    rw [headD_eq_getD _ hne, pyRange_getD]
    · simp
    · exact List.length_pos.mpr hne
  · intro i hi
    rw [pyRange_getD _ _ _ hi, pyRange_getD _ _ _ (Nat.lt_of_succ_lt hi)]
    push_cast
    ring

/-- Claim C4 (witness): restoring step 7 into the same logdir gives first
executed step 8, consecutive steps differ by 1, and fresh/overwritten runs
resolve to -1. -/
theorem C4_witness :
    resolveSavedStep (some 9) true = -1 ∧
    resolveSavedStep none false = -1 ∧
    resolveSavedStep (some 7) false = 7 ∧
    is_overwritten_training "logs" "logs" = false ∧
    (pyRange 8 10).headD 0 = 8 ∧
    (pyRange 8 10).getD 1 0 = (pyRange 8 10).getD 0 0 + 1 := by
  obtain ⟨h1, h2, h3, h4, h5, h6⟩ := C4_step_counter 7 10 (some 9) "logs"
  exact ⟨h1, h2, h3, h4, h5 (by decide), h6 0 (by decide)⟩

lemma executedOf_runLoop (saved : Int) (ns ce : Nat) (it : Option Nat) :
    executedOf (runLoop saved ns ce it) = executedSteps saved ns it := by
  simp only [runLoop]
  split <;> rfl

/-- Claim C7 (theorem): a restore error is propagated as-is and no training
step executes; an absent checkpoint is not an error — the run proceeds with
saved step -1, so the first executed step of an uninterrupted run is 0. -/
theorem C7_restore_policy (e : String) (ow : Bool) (ns ce : Nat)
    (it : Option Nat) :
    standalone_run (.error e) ow ns ce it = .restoreError e ∧
    executedOf (standalone_run (.error e) ow ns ce it) = [] ∧
    standalone_run (.ok none) ow ns ce it = runLoop (-1) ns ce it ∧
    (0 < ns → executedOf (standalone_run (.ok none) ow ns ce none) ≠ [] ∧
      (executedOf (standalone_run (.ok none) ow ns ce none)).headD 0 = 0) := by
  have hres : resolveSavedStep none ow = -1 := by
    simp [resolveSavedStep]
  refine ⟨rfl, rfl, by simp [standalone_run, hres], fun hns => ?_⟩
  have hrun : executedOf (standalone_run (.ok none) ow ns ce none)
      = pyRange 0 ns := by
    simp [standalone_run, hres, executedOf_runLoop, executedSteps]
  have hlen : (pyRange 0 ns).length = ns := by
    rw [pyRange_length]
    omega
  have hne : pyRange 0 ns ≠ [] := by
    intro hempty
    rw [hempty] at hlen
    simp at hlen
    omega
  constructor
  · rw [hrun]; exact hne
  · rw [hrun, headD_eq_getD _ hne, pyRange_getD]
    · simp
    · rw [hlen]; omega

/-- Claim C7 (witness): a concrete restore error aborts with no step executed,
and a missing checkpoint starts fresh at step 0. -/
theorem C7_witness :
    standalone_run (.error "corrupt checkpoint") false 3 2 none =
      .restoreError "corrupt checkpoint" ∧
    executedOf (standalone_run (.error "corrupt checkpoint") false 3 2 none) = [] ∧
    (executedOf (standalone_run (.ok none) false 3 2 none)).headD 0 = 0 := by
  obtain ⟨h1, h2, _, h4⟩ := C7_restore_policy "corrupt checkpoint" false 3 2 none
  exact ⟨h1, h2, (h4 (by decide)).2⟩

lemma loopIter_stepVar (ce : Nat) (s : LoopState) (st : Int) :
    (loopIter ce s st).stepVar = some st := by
  simp only [loopIter]
  split <;> rfl

lemma loopIter_invariant (ce : Nat) (saved : Int) (s : LoopState) (st : Int)
    (h : s.lastSaved = s.checkpoints.getLast?.getD saved) :
    (loopIter ce s st).lastSaved =
      (loopIter ce s st).checkpoints.getLast?.getD saved := by
  simp only [loopIter]
  split
  · simp
  · simpa using h

lemma processSteps_lastSaved (ce : Nat) (saved : Int) :
    ∀ (steps : List Int) (s : LoopState),
      s.lastSaved = s.checkpoints.getLast?.getD saved →
      (processSteps ce s steps).lastSaved =
        (processSteps ce s steps).checkpoints.getLast?.getD saved := by
  intro steps
  induction steps with
  | nil => intro s h; exact h
  | cons st rest ih =>
    intro s h
    exact ih _ (loopIter_invariant ce saved s st h)

lemma processSteps_stepVar (ce : Nat) :
    ∀ (steps : List Int) (s : LoopState), steps ≠ [] →
      (processSteps ce s steps).stepVar = steps.getLast? := by
  intro steps
  induction steps with
  | nil => intro s hne; exact absurd rfl hne
  | cons st rest ih =>
    intro s _
    cases rest with
    | nil => simp [processSteps, loopIter_stepVar]
    | cons b t =>
      rw [List.getLast?_cons_cons]
      exact ih (loopIter ce s st) (by simp)

/-- Claim C6 (theorem): a completed standalone run writes the final checkpoint
exactly when the most recently executed step is strictly greater than the last
checkpointed step (the last periodic checkpoint of the run, or the restored
step when the run checkpointed nothing). -/
theorem C6_final_save_iff (saved : Int) (ns ce : Nat) (it : Option Nat)
    (steps cps : List Int) (fs : Option Int) (l : Int)
    (hrun : runLoop saved ns ce it = .completed steps cps fs)
    (hlast : steps.getLast? = some l) :
    fs = if l > lastCheckpointed saved cps then some l else none := by
  simp only [runLoop] at hrun
  cases hsv : (processSteps ce
      { lastSaved := saved, checkpoints := [], stepVar := none }
      (executedSteps saved ns it)).stepVar with
  | none => rw [hsv] at hrun; simp at hrun
  | some st =>
    rw [hsv] at hrun
    injection hrun with h1 h2 h3
    subst h1 h2 h3
    have hne : executedSteps saved ns it ≠ [] := by
      intro hempty
      rw [hempty] at hlast
      simp at hlast
    have hsv2 := processSteps_stepVar ce (executedSteps saved ns it)
      { lastSaved := saved, checkpoints := [], stepVar := none } hne
    rw [hsv, hlast] at hsv2
    have hstl : st = l := by
      exact Option.some.inj hsv2
    have hls := processSteps_lastSaved ce saved (executedSteps saved ns it)
      { lastSaved := saved, checkpoints := [], stepVar := none } (by simp)
    rw [hstl] at *
    rw [lastCheckpointed, ← hls]

/-- Claim C6 (witness): a fresh num_steps=3, checkpoint_every=2 run ends at
step 2 with last checkpoint 2 and writes no final save; a restored
num_steps=10, checkpoint_every=4 run ends at step 9 past its last checkpoint 8
and writes a final save at 9. -/
theorem C6_witness :
    ((none : Option Int) =
      if (2 : Int) > lastCheckpointed (-1) [0, 2] then some 2 else none) ∧
    ((some 9 : Option Int) =
      if (9 : Int) > lastCheckpointed 5 [8] then some 9 else none) :=
  ⟨C6_final_save_iff (-1) 3 2 none [0, 1, 2] [0, 2] none 2 (by decide) (by decide),
   C6_final_save_iff 5 10 4 none [6, 7, 8, 9] [8] (some 9) 9 (by decide) (by decide)⟩

/-- Claim C5 (theorem): `validate_directories` raises exactly when `--logdir`
is combined with `--logdir_root` or with `--restore_from` — so of the three
pairings only `--logdir_root` with `--restore_from` is accepted — and on a
validation error `main` only prints the error: it opens no file and runs no
training. -/
theorem C5_directory_exclusivity (started : String) (args : DirArgs)
    (p : String) :
    (isErr (validate_directories started args) = true ↔
      (args.logdir.isSome && (args.logdir_root.isSome || args.restore_from.isSome))
        = true) ∧
    (isErr (validate_directories started args) = true →
      main_trace started args p = [.printedConfigError]) ∧
    (args.logdir.isNone → isErr (validate_directories started args) = false) ∧
    (MainEvent.openedParamsFile p ∈ main_trace started args p →
      isErr (validate_directories started args) = false) := by
  obtain ⟨ld, lr, rf⟩ := args
  cases ld <;> cases lr <;> cases rf <;>
    simp [validate_directories, isErr, main_trace]

/-- Claim C5 (witness): giving both `--logdir` and `--logdir_root` is rejected
and `main` stops after printing the configuration error; giving
`--logdir_root` together with `--restore_from` is accepted. -/
theorem C5_witness :
    main_trace "2016-01-01T00-00-00"
      { logdir := some "a", logdir_root := some "b", restore_from := none }
      "wavenet_params.json" = [.printedConfigError] ∧
    isErr (validate_directories "2016-01-01T00-00-00"
      { logdir := none, logdir_root := some "b", restore_from := some "c" })
      = false := by
  constructor
  · exact (C5_directory_exclusivity "2016-01-01T00-00-00"
      { logdir := some "a", logdir_root := some "b", restore_from := none }
      "wavenet_params.json").2.1 (by decide)
  · exact (C5_directory_exclusivity "2016-01-01T00-00-00"
      { logdir := none, logdir_root := some "b", restore_from := some "c" }
      "wavenet_params.json").2.2.1 (by decide)

lemma avgGo_all_present :
    ∀ (ps : List (List GradVar)) (acc : List GradVar) (vOpt : Option Nat),
      (∀ gvs ∈ ps, presentGrads gvs ≠ []) →
      avgGo acc vOpt ps = .ok (acc ++ ps.map
        (fun gvs => (some (towerMean (presentGrads gvs)), (gvs.headD default).2))) := by
  intro ps
  induction ps with
  | nil =>
    intro acc v _
    simp [avgGo]
  | cons gvs rest ih =>
    intro acc v h
    have h0 : presentGrads gvs ≠ [] := h gvs (by simp)
    have hne : (presentGrads gvs).isEmpty = false := by
      simpa [List.isEmpty_iff] using h0
    simp only [avgGo, hne, Bool.false_eq_true, if_false]
    rw [ih _ _ (fun g hg => h g (List.mem_cons_of_mem _ hg))]
    simp

/-- Claim C1 (theorem): when every variable position receives at least one
tower contribution, the averaging loop of `build_multigpu` succeeds and
produces, for each position, the arithmetic mean of exactly the present
contributions (absent towers are skipped), paired with the first tower's
variable. -/
theorem C1_mean_of_present (tower_grads : List (List GradVar))
    (h : ∀ gvs ∈ pyZip tower_grads, presentGrads gvs ≠ []) :
    average_gradients tower_grads =
      .ok ((pyZip tower_grads).map
        (fun gvs => (some (towerMean (presentGrads gvs)), (gvs.headD default).2))) := by
  unfold average_gradients
  rw [avgGo_all_present (pyZip tower_grads) [] none h]
  simp

/-- Claim C1 (witness): two towers contributing gradients 1 and 3 for the sole
variable average to 2. -/
theorem C1_witness :
    average_gradients [[(some (1 : ℚ), 0)], [(some (3 : ℚ), 0)]] =
      .ok [(some 2, 0)] := by
  rw [C1_mean_of_present [[(some (1 : ℚ), 0)], [(some (3 : ℚ), 0)]] (by decide)]
  norm_num [pyZip, minLength, presentGrads, towerMean, List.range_succ,
    List.filterMap_cons]

lemma avgGo_ok_shape :
    ∀ (ps : List (List GradVar)) (acc : List GradVar) (v : Option Nat)
      (out : List GradVar), avgGo acc v ps = .ok out →
      ∃ tail, out = acc ++ tail ∧ tail.length = ps.length ∧
        ∀ i : Nat, i < ps.length → presentGrads (ps.getD i []) = [] →
          (tail.getD i default).1 = none := by
  intro ps
  induction ps with
  | nil =>
    intro acc v out h
    simp only [avgGo, Except.ok.injEq] at h
    refine ⟨[], by simp [h], rfl, ?_⟩
    intro i hi
    simp at hi
  | cons gvs rest ih =>
    intro acc v out h
    by_cases hemp : (presentGrads gvs).isEmpty
    · simp only [avgGo, hemp, if_true] at h
      cases v with
      | none => simp at h
      | some w =>
        obtain ⟨tail, hout, hlen, hnone⟩ := ih (acc ++ [(none, w)]) (some w) out h
        refine ⟨(none, w) :: tail, by simp [hout], by simp [hlen], ?_⟩
        intro i hi hpres
        cases i with
        | zero => rfl
        | succ j =>
          have hj : j < rest.length := by simpa using hi
          have hp : presentGrads (rest.getD j []) = [] := by
            simpa [List.getD_cons_succ] using hpres
          simpa [List.getD_cons_succ] using hnone j hj hp
    · simp only [avgGo, hemp, if_false] at h
      obtain ⟨tail, hout, hlen, hnone⟩ := ih _ _ out h
      refine ⟨(some (towerMean (presentGrads gvs)), (gvs.headD default).2) :: tail,
        by simp [hout], by simp [hlen], ?_⟩
      intro i hi hpres
      cases i with
      | zero =>
        exfalso
        apply hemp
        simp only [List.getD_cons_zero] at hpres
        simp [hpres]
      | succ j =>
        have hj : j < rest.length := by simpa using hi
        have hp : presentGrads (rest.getD j []) = [] := by
          simpa [List.getD_cons_succ] using hpres
        simpa [List.getD_cons_succ] using hnone j hj hp

/-- Claim C2 (counterexample): a single tower whose only variable has no
gradient contribution makes the aggregation raise NameError — it is not
well-defined when such a variable occupies the first position. -/
theorem C2_first_position_error :
    average_gradients [[((none : Option ℚ), 0)]] = .error nameErrorV := by
  simp [average_gradients, avgGo, pyZip, minLength, presentGrads]

/-- Claim C2 (amended, theorem): a variable with zero contributions never
receives a zero-valued gradient — in any successful aggregation its entry has
gradient None — but the aggregation is not well-defined at every position: when
the first variable position has zero contributions it raises NameError. -/
theorem C2_zero_contribution :
    (∀ (tg : List (List GradVar)) (gvs : List GradVar)
      (rest : List (List GradVar)), pyZip tg = gvs :: rest →
      presentGrads gvs = [] → average_gradients tg = .error nameErrorV) ∧
    (∀ (tg : List (List GradVar)) (out : List GradVar) (i : Nat),
      average_gradients tg = .ok out → i < (pyZip tg).length →
      presentGrads ((pyZip tg).getD i []) = [] →
      (out.getD i default).1 = none) := by
  constructor
  · intro tg gvs rest hzip hpres
    unfold average_gradients
    rw [hzip]
    have hemp : (presentGrads gvs).isEmpty = true := by
      simp [hpres]
    simp [avgGo, hemp]
  · intro tg out i hok hi hpres
    obtain ⟨tail, hout, _, hnone⟩ := avgGo_ok_shape (pyZip tg) [] none out hok
    rw [hout]
    simpa using hnone i hi hpres

/-- Claim C2 (witness): the NameError case at the first position, and a later
zero-contribution variable receiving gradient None (paired with the stale
variable 0, not its own variable 5). -/
theorem C2_witness :
    average_gradients [[((none : Option ℚ), 3)]] = .error nameErrorV ∧
    (([((some 2 : Option ℚ), 0), (none, 0)].getD 1 default).1
      = (none : Option ℚ)) := by
  constructor
  · exact C2_zero_contribution.1 [[((none : Option ℚ), 3)]]
      [((none : Option ℚ), 3)] [] (by decide) (by decide)
  · refine C2_zero_contribution.2
      [[(some (1 : ℚ), 0), (none, 5)], [(some (3 : ℚ), 0), (none, 5)]]
      [(some 2, 0), (none, 0)] 1 ?_ (by decide) (by decide)
    simp [average_gradients, avgGo, pyZip, minLength, presentGrads, towerMean,
      List.range_succ]
    norm_num
